import Mathlib

/-!
Verification of the aiassistkit adapter core (agents/agentkit adapter, the
genagents multi-target generator, and the registry contract) against its
natural-language specification.

The Go source is shallowly embedded:

* Pure struct-to-struct conversions (`agentToConfig`, `configToAgent`) become
  Lean functions.  Go `map` iteration order is unspecified and randomized by
  the runtime, so every place the source ranges over a map is parameterized
  by the iteration order actually taken, constrained to be a permutation of
  the map's contents.
* Calls into external libraries (`encoding/json`, the OS file system) are
  parameterized by oracles describing the outcome of the external call; the
  adapter code's own control flow around those calls is embedded verbatim.
* The `core` package (canonical `Agent`, the adapter registry, error kinds,
  file modes) is not part of the provided sources; those pieces are modelled
  from the spec and are marked as such in their doc comments.
-/

namespace AiAssistKit

/-- Modelled from the spec: the canonical `core.Agent` entity (package
`agents/core` is not among the provided sources).  Fields are exactly the
ones the agentkit adapter reads and writes and the spec's canonical entity
names: name, description, free-text instructions, the capability-identifier
list, and the optional model identifier. -/
structure Agent where
  name : String
  description : String
  instructions : String
  tools : List String
  model : String
deriving Repr, DecidableEq

/-- The agentkit `AgentConfig` structure (adapter.go).  `maxTokens` mirrors
the Go `MaxTokens int` field; `agentToConfig` never sets it, so it keeps the
Go zero value. -/
structure AgentConfig where
  name : String
  description : String
  instructions : String
  tools : List String
  model : String
  maxTokens : Int
deriving Repr, DecidableEq

/-- The forward tool mapping of adapter.go (`toolMapping`), in source order.
In Go this is a `map[string]string`; keys are distinct, so lookup is
order-independent, but ranging over it is not — see `mkReverse`. -/
def toolMapping : List (String × String) :=
  [("WebSearch", "shell"),
   ("WebFetch", "shell"),
   ("Read", "read"),
   ("Write", "write"),
   ("Glob", "glob"),
   ("Grep", "grep"),
   ("Bash", "shell"),
   ("Edit", "write"),
   ("Task", "shell")]

/-- Lookup in the forward tool map (`toolMapping[tool]` in Go).  The keys of
`toolMapping` are pairwise distinct, so the first match is the only match. -/
def toolMapLookup (t : String) : Option String :=
  (toolMapping.find? (fun kv => kv.1 = t)).map (fun kv => kv.2)

/-- The forward model mapping of adapter.go (`modelMapping`). -/
def modelMapping : List (String × String) :=
  [("haiku", "claude-3-haiku-20240307"),
   ("sonnet", "claude-3-5-sonnet-20241022"),
   ("opus", "claude-3-opus-20240229")]

/-- Lookup in the forward model map (`modelMapping[agent.Model]` in Go). -/
def modelMapLookup (m : String) : Option String :=
  (modelMapping.find? (fun kv => kv.1 = m)).map (fun kv => kv.2)

/-- Models `strings.ToLower` character-wise (the identifiers involved are
ASCII). -/
def strToLower (s : String) : String :=
  String.mk (s.data.map Char.toLower)

/-- One tool's destination identifier, as computed inside the tool loop of
`agentToConfig`: the forward-table image when present, otherwise the
lower-cased source identifier ("preserve unknown"). -/
def mapTool (t : String) : String :=
  match toolMapLookup t with
  | some mapped => mapped
  | none => strToLower t

/-- The contents of the Go set `toolSet` built by `agentToConfig`: the
distinct destination identifiers of the agent's tools.  `dedup` supplies one
concrete duplicate-free listing; the order actually emitted is quantified
separately (see `isToolEnum`). -/
def toolSetOf (tools : List String) : List String :=
  (tools.map mapTool).dedup

/-- `ord` is a possible iteration order of the Go map `toolSet` in
`agentToConfig`: some enumeration of exactly the set's elements.  Go
randomizes map iteration, so any permutation may occur. -/
def isToolEnum (agent : Agent) (ord : List String) : Prop :=
  ord.Perm (toolSetOf agent.tools)

/-- The model field computed by `agentToConfig`: the forward-table image when
present; otherwise the source model when non-empty; otherwise the Go zero
value (the empty string). -/
def mapModel (m : String) : String :=
  match modelMapLookup m with
  | some mapped => mapped
  | none => if m ≠ "" then m else ""

/-- `agentToConfig` of adapter.go, with the iteration order of the `toolSet`
map made explicit as `ord` (Go map iteration order is unspecified). -/
def agentToConfigWith (agent : Agent) (ord : List String) : AgentConfig :=
  { name := agent.name
    description := agent.description
    instructions := agent.instructions
    tools := ord
    model := mapModel agent.model
    maxTokens := 0 }

/-- The reverse tool table built by `configToAgent`:
`for k, v := range toolMapping { reverseToolMapping[v] = k }` with iteration
order `entries`.  Writing into a Go map overwrites, so the binding for a
destination `d` is the key of the LAST pair in iteration order whose value is
`d` — equivalently the first such pair of the reversed order. -/
def mkReverse (entries : List (String × String)) (d : String) : Option String :=
  (entries.reverse.find? (fun kv => kv.2 = d)).map (fun kv => kv.1)

/-- One tool's parse-back image in `configToAgent`: the reverse-table entry
when present, otherwise the identifier unchanged. -/
def unmapTool (entries : List (String × String)) (t : String) : String :=
  match mkReverse entries t with
  | some mapped => mapped
  | none => t

/-- The tools loop of `configToAgent`: appends one mapped entry per input
entry, in input order. -/
def unmapTools (entries : List (String × String)) (tools : List String) : List String :=
  tools.foldl (fun acc t => acc ++ [unmapTool entries t]) []

/-- `configToAgent` of adapter.go, with the iteration order used to build the
per-call `reverseToolMapping` made explicit as `entries` (a permutation of
`toolMapping`).  Note the model field is copied verbatim: there is no reverse
model mapping in the source. -/
def configToAgentWith (cfg : AgentConfig) (entries : List (String × String)) : Agent :=
  { name := cfg.name
    description := cfg.description
    instructions := cfg.instructions
    model := cfg.model
    tools := unmapTools entries cfg.tools }

/-- Modelled from the spec: the error kinds of the `core` package (not among
the provided sources).  Each carries exactly what the spec requires: the
format name and underlying cause for parse/marshal failures, the path and
underlying cause for I/O failures.  Causes of external origin are modelled as
strings. -/
inductive AdapterError where
  | parseError (format : String) (cause : String)
  | marshalError (format : String) (cause : String)
  | readError (path : String) (cause : String)
  | writeError (path : String) (cause : String)
deriving Repr, DecidableEq

/-- `Parse` of adapter.go, with the external `json.Unmarshal` call given as
the oracle `dec` (its outcome on the input bytes) and the reverse-table
iteration order as `entries`.  On decode failure the source returns
`ParseError` with format "agentkit" wrapping the cause; on success it returns
`configToAgent` of the decoded config and no error. -/
def ParseWith (dec : String → Except String AgentConfig)
    (entries : List (String × String)) (data : String) :
    Except AdapterError Agent :=
  match dec data with
  | Except.error e => Except.error (AdapterError.parseError "agentkit" e)
  | Except.ok cfg => Except.ok (configToAgentWith cfg entries)

/-- `Marshal` of adapter.go, with the external `json.MarshalIndent` call
given as the oracle `enc` and the tool-set iteration order as `ord`.  On
encode failure the source returns `MarshalError` with format "agentkit"; on
success it appends a trailing newline to the encoded bytes. -/
def MarshalWith (enc : AgentConfig → Except String String)
    (ord : List String) (agent : Agent) : Except AdapterError String :=
  match enc (agentToConfigWith agent ord) with
  | Except.error e => Except.error (AdapterError.marshalError "agentkit" e)
  | Except.ok data => Except.ok (data ++ "\n")

/-- Modelled from the spec: `core.DefaultDirMode`, the standard
non-world-writable directory mode used by `WriteFile` (the `core` package is
not among the provided sources). -/
def defaultDirMode : Nat := 0o755

/-- Modelled from the spec: `core.DefaultFileMode`, the restrictive file mode
used by `WriteFile` for potentially sensitive content. -/
def defaultFileMode : Nat := 0o600

/-- The file-system state visible to the embedding: created directories and
written files, each with the mode used, plus two oracles giving the outcome
of the OS calls `os.MkdirAll` and `os.WriteFile` on each path (`none` means
the call succeeds, `some e` that it fails with cause `e`). -/
structure FS where
  dirs : List (String × Nat)
  files : List (String × String × Nat)
  mkdirFail : String → Option String
  writeFail : String → Option String

/-- `os.MkdirAll path mode`: records the directory on success, fails with the
oracle's cause otherwise. -/
def osMkdirAll (path : String) (mode : Nat) (fs : FS) : Except String FS :=
  match fs.mkdirFail path with
  | some e => Except.error e
  | none => Except.ok { fs with dirs := (path, mode) :: fs.dirs }

/-- `os.WriteFile path data mode`: records the file on success, fails with
the oracle's cause otherwise. -/
def osWriteFile (path : String) (data : String) (mode : Nat) (fs : FS) :
    Except String FS :=
  match fs.writeFail path with
  | some e => Except.error e
  | none => Except.ok { fs with files := (path, data, mode) :: fs.files }

/-- Characters strictly before the last slash of the list, or `none` when the
list has no slash. -/
def dirOfAux : List Char → Option (List Char)
  | [] => none
  | c :: cs =>
    match dirOfAux cs with
    | some rest => some (c :: rest)
    | none => if c = '/' then some [] else none

/-- Models `path/filepath.Dir` for the slash-separated relative paths used
here: the path up to the final separator, or "." when there is none. -/
def filepathDir (path : String) : String :=
  match dirOfAux path.data with
  | some d => String.mk d
  | none => "."

/-- `WriteFile` of adapter.go: marshal first and return the marshal error
unchanged on failure; otherwise `MkdirAll` the parent directory with
`DefaultDirMode`, then write the bytes with `DefaultFileMode`, wrapping
either OS failure as `WriteError` carrying the path and the cause.  Returns
the error (if any) and the resulting file-system state. -/
def WriteFileWith (enc : AgentConfig → Except String String)
    (ord : List String) (agent : Agent) (path : String) (fs : FS) :
    Option AdapterError × FS :=
  match MarshalWith enc ord agent with
  | Except.error e => (some e, fs)
  | Except.ok data =>
    match osMkdirAll (filepathDir path) defaultDirMode fs with
    | Except.error e => (some (AdapterError.writeError path e), fs)
    | Except.ok fs1 =>
      match osWriteFile path data defaultFileMode fs1 with
      | Except.error e => (some (AdapterError.writeError path e), fs1)
      | Except.ok fs2 => (none, fs2)

/-- Modelled from the spec: a registered adapter as the generator uses one —
its file extension (pure metadata) and its `WriteFile` behavior, abstract
here because only the agentkit adapter's sources are provided. -/
structure AdapterI where
  fileExtension : String
  write : Agent → String → FS → Option AdapterError × FS

/-- Modelled from the spec: the registry is a table from adapter name to
adapter instance, populated before any lookup and immutable afterwards. -/
def Registry := List (String × AdapterI)

/-- Modelled from the spec: `core.GetAdapter` — pure lookup by name, with a
not-found signal. -/
def getAdapter (reg : Registry) (name : String) : Option AdapterI :=
  (List.find? (fun p => p.1 = name) reg).map (fun p => p.2)

/-- Modelled from the spec: `core.AdapterNames` — all registered names, in
the registry's stable order. -/
def adapterNames (reg : Registry) : List String :=
  List.map (fun p => p.1) reg

/-- Rendering of an adapter error when wrapped into a message with
`fmt.Errorf` (the concrete `Error()` strings live in the absent `core`
package; modelled from the spec: each message carries the format or path and
the cause). -/
def AdapterError.render : AdapterError → String
  | AdapterError.parseError f e => "parse error in " ++ f ++ ": " ++ e
  | AdapterError.marshalError f e => "marshal error in " ++ f ++ ": " ++ e
  | AdapterError.readError p e => "read error at " ++ p ++ ": " ++ e
  | AdapterError.writeError p e => "write error at " ++ p ++ ": " ++ e

/-- The "unknown format" message built by `generateAgents` (genagents):
`fmt.Errorf("unknown format %q (available: %s)", format, strings.Join(available, ", "))`. -/
def unknownFormatMsg (format : String) (available : List String) : String :=
  "unknown format \"" ++ format ++ "\" (available: " ++
    String.intercalate ", " available ++ ")"

/-- The per-agent loop of `generateAgents`: for each agent, join the output
directory with `agent.Name + adapter.FileExtension()` and call the adapter's
`WriteFile`, aborting with a wrapped error on the first failure. -/
def writeAgentsLoop (ad : AdapterI) (outputDir : String) (fs : FS) :
    List Agent → Except String Unit × FS
  | [] => (Except.ok (), fs)
  | agent :: rest =>
    let path := outputDir ++ "/" ++ agent.name ++ ad.fileExtension
    match ad.write agent path fs with
    | (some e, fs1) =>
      (Except.error ("failed to write " ++ path ++ ": " ++ e.render), fs1)
    | (none, fs1) => writeAgentsLoop ad outputDir fs1 rest

/-- `generateAgents` of genagents (src/unnamed/part_002): ensure the output
directory exists, look the format up in the registry — failing with the
"unknown format" message listing `AdapterNames` when absent — then write
each agent through the adapter. -/
def generateAgentsM (reg : Registry) (agentList : List Agent)
    (format outputDir : String) (fs : FS) : Except String Unit × FS :=
  match osMkdirAll outputDir 0o755 fs with
  | Except.error e =>
    (Except.error ("failed to create output directory: " ++ e), fs)
  | Except.ok fs1 =>
    match getAdapter reg format with
    | none => (Except.error (unknownFormatMsg format (adapterNames reg)), fs1)
    | some ad => writeAgentsLoop ad outputDir fs1 agentList

/-- A deployment target from deployment.json, the fields the target loop of
`runProjectMode` reads (the free-form `Config` map is not consulted by the
loop itself and is omitted). -/
structure Target where
  name : String
  platform : String
  priority : String
  output : String
deriving Repr, DecidableEq

/-- The target loop of `runProjectMode` (genagents): skip targets filtered
out by priority, call `generateForPlatform` on the rest — abstracted as the
outcome oracle `gen` — and on the first failure return
`fmt.Errorf("failed to generate %s: %w", target.Name, err)`.  The second
component records, in order, the names of the targets for which
`generateForPlatform` was actually invoked. -/
def processTargets (gen : Target → Except String Unit) (pf : String) :
    List Target → Except String Unit × List String
  | [] => (Except.ok (), [])
  | t :: ts =>
    if pf ≠ "" ∧ t.priority ≠ pf then processTargets gen pf ts
    else
      match gen t with
      | Except.error e =>
        (Except.error ("failed to generate " ++ t.name ++ ": " ++ e), [t.name])
      | Except.ok _ =>
        let r := processTargets gen pf ts
        (r.1, t.name :: r.2)

/-- The names of the targets that survive the priority filter of
`runProjectMode`, in order: a target is processed when the filter is empty or
matches its priority. -/
def keptNames (pf : String) (ts : List Target) : List String :=
  List.map Target.name
    (ts.filter (fun t2 => pf == "" || t2.priority == pf))

/-- A concrete two-adapter registry used to exercise the unknown-format
path. -/
def regW : Registry :=
  [("claude", ⟨".md", fun _ _ fs => (none, fs)⟩),
   ("kiro", ⟨".json", fun _ _ fs => (none, fs)⟩)]

/-! ## Helper lemmas -/

/-- `find?` returns the head of the filtered list. -/
theorem find?_eq_head?_filterAK {α : Type} (p : α → Bool) (l : List α) :
    l.find? p = (l.filter p).head? := by
  induction l with
  | nil => rfl
  | cons a l ih =>
    cases hpa : p a
    · rw [List.find?_cons_of_neg _ (by simp [hpa])]
      rw [show List.filter p (a :: l) = List.filter p l by
        simp [List.filter_cons, hpa]]
      exact ih
    · rw [List.find?_cons_of_pos _ hpa]
      rw [show List.filter p (a :: l) = a :: List.filter p l by
        simp [List.filter_cons, hpa]]
      rfl

/-- A destination value with exactly one forward entry reverse-maps to that
entry's key under EVERY iteration order of the forward table: the last-write
winner is unique when there is only one writer. -/
theorem mkReverse_of_perm (entries : List (String × String))
    (hp : entries.Perm toolMapping) (d k : String)
    (hfilter : toolMapping.filter (fun kv => kv.2 = d) = [(k, d)]) :
    mkReverse entries d = some k := by
  unfold mkReverse
  rw [find?_eq_head?_filterAK, List.filter_reverse]
  have h1 : (entries.filter (fun kv => kv.2 = d)).Perm
      (toolMapping.filter (fun kv => kv.2 = d)) := hp.filter _
  rw [hfilter] at h1
  rw [List.perm_singleton.mp h1]
  rfl

/-- The append-fold of `configToAgent`'s tools loop is a `map`. -/
theorem foldl_append_eq_map {α β : Type} (f : α → β) (l : List α)
    (acc : List β) :
    l.foldl (fun a t => a ++ [f t]) acc = acc ++ l.map f := by
  induction l generalizing acc with
  | nil => simp
  | cons x xs ih => simp [List.foldl_cons, ih]

/-- `unmapTools` maps each entry independently, in order. -/
theorem unmapTools_eq_map (entries : List (String × String))
    (tools : List String) :
    unmapTools entries tools = tools.map (unmapTool entries) := by
  unfold unmapTools
  rw [foldl_append_eq_map]
  simp

/-! ## Claim C1 — round-trip -/

/-- C1 (counterexample): the round-trip claim fails on the code.  The agent
named "a" with tools `["WebSearch"]` and model `"haiku"` uses only forward-
table vocabulary, `["shell"]` is a valid iteration order of its marshaled
tool set, and the source-order iteration of `toolMapping` is a possible
iteration order for the reverse table — yet `Parse (Marshal E)` returns the
tools `["Task"]` and the model `"claude-3-haiku-20240307"`: `configToAgent`
copies the destination model verbatim (there is no reverse model table), and
the reverse tool table's last-write winner for "shell" need not be
"WebSearch". -/
theorem C1_roundtrip_counterexample :
    isToolEnum ⟨"a", "", "", ["WebSearch"], "haiku"⟩ ["shell"] ∧
    configToAgentWith
        (agentToConfigWith ⟨"a", "", "", ["WebSearch"], "haiku"⟩ ["shell"])
        toolMapping ≠ ⟨"a", "", "", ["WebSearch"], "haiku"⟩ ∧
    (configToAgentWith
        (agentToConfigWith ⟨"a", "", "", ["WebSearch"], "haiku"⟩ ["shell"])
        toolMapping).model = "claude-3-haiku-20240307" ∧
    (configToAgentWith
        (agentToConfigWith ⟨"a", "", "", ["WebSearch"], "haiku"⟩ ["shell"])
        toolMapping).tools = ["Task"] := by
  refine ⟨?_, ?_, ?_, ?_⟩
  · unfold isToolEnum toolSetOf
    decide
  · decide
  · decide
  · decide

/-- C1 (amended): `Parse (Marshal E)` always reproduces name, description and
instructions; it reproduces the model whenever the model is NOT a forward
model-table key; and it reproduces the tools up to enumeration order whenever
the tools are duplicate-free and drawn from the identifiers whose forward
image has a unique preimage ("Read", "Glob", "Grep") — and this holds for
every iteration order of the tool set and of the reverse-table construction. -/
theorem C1_roundtrip_amended (E : Agent) (ord : List String)
    (entries : List (String × String))
    (hord : isToolEnum E ord) (hent : entries.Perm toolMapping)
    (htools : ∀ t ∈ E.tools, t = "Read" ∨ t = "Glob" ∨ t = "Grep")
    (hnd : E.tools.Nodup)
    (hmodel : modelMapLookup E.model = none) :
    (configToAgentWith (agentToConfigWith E ord) entries).name = E.name ∧
    (configToAgentWith (agentToConfigWith E ord) entries).description
      = E.description ∧
    (configToAgentWith (agentToConfigWith E ord) entries).instructions
      = E.instructions ∧
    (configToAgentWith (agentToConfigWith E ord) entries).model = E.model ∧
    ((configToAgentWith (agentToConfigWith E ord) entries).tools).Perm
      E.tools := by
  refine ⟨rfl, rfl, rfl, ?_, ?_⟩
  · show mapModel E.model = E.model
    unfold mapModel
    rw [hmodel]
    by_cases h : E.model = "" <;> simp [h]
  · show (unmapTools entries ord).Perm E.tools
    rw [unmapTools_eq_map]
    have hmapnd : (E.tools.map mapTool).Nodup := by
      refine hnd.map_on ?_
      intro x hx y hy hxy
      rcases htools x hx with rfl | rfl | rfl <;>
        rcases htools y hy with rfl | rfl | rfl <;>
        first
          | rfl
          | exact absurd hxy (by decide)
    have hdedup : toolSetOf E.tools = E.tools.map mapTool :=
      List.Nodup.dedup hmapnd
    unfold isToolEnum at hord
    rw [hdedup] at hord
    have h2 : (ord.map (unmapTool entries)).Perm
        ((E.tools.map mapTool).map (unmapTool entries)) :=
      hord.map (unmapTool entries)
    rw [List.map_map] at h2
    have h3 : E.tools.map (unmapTool entries ∘ mapTool) = E.tools := by
      have := List.map_congr_left (l := E.tools)
        (f := unmapTool entries ∘ mapTool) (g := id) ?_
      · rw [this, List.map_id]
      · intro t ht
        rcases htools t ht with rfl | rfl | rfl
        · show unmapTool entries (mapTool "Read") = "Read"
          rw [show mapTool "Read" = "read" from rfl]
          unfold unmapTool
          rw [mkReverse_of_perm entries hent "read" "Read" (by decide)]
        · show unmapTool entries (mapTool "Glob") = "Glob"
          rw [show mapTool "Glob" = "glob" from rfl]
          unfold unmapTool
          rw [mkReverse_of_perm entries hent "glob" "Glob" (by decide)]
        · show unmapTool entries (mapTool "Grep") = "Grep"
          rw [show mapTool "Grep" = "grep" from rfl]
          unfold unmapTool
          rw [mkReverse_of_perm entries hent "grep" "Grep" (by decide)]
    rw [h3] at h2
    exact h2

/-- C1 (witness): the amended round-trip at the concrete agent
⟨"a","d","i",["Read","Grep"],"custom"⟩ with the source-order reverse table. -/
theorem C1_roundtrip_amended_witness :
    (configToAgentWith
      (agentToConfigWith ⟨"a", "d", "i", ["Read", "Grep"], "custom"⟩
        ["read", "grep"]) toolMapping).name = "a" ∧
    (configToAgentWith
      (agentToConfigWith ⟨"a", "d", "i", ["Read", "Grep"], "custom"⟩
        ["read", "grep"]) toolMapping).description = "d" ∧
    (configToAgentWith
      (agentToConfigWith ⟨"a", "d", "i", ["Read", "Grep"], "custom"⟩
        ["read", "grep"]) toolMapping).instructions = "i" ∧
    (configToAgentWith
      (agentToConfigWith ⟨"a", "d", "i", ["Read", "Grep"], "custom"⟩
        ["read", "grep"]) toolMapping).model = "custom" ∧
    ((configToAgentWith
      (agentToConfigWith ⟨"a", "d", "i", ["Read", "Grep"], "custom"⟩
        ["read", "grep"]) toolMapping).tools).Perm ["Read", "Grep"] :=
  C1_roundtrip_amended ⟨"a", "d", "i", ["Read", "Grep"], "custom"⟩
    ["read", "grep"] toolMapping
    (by unfold isToolEnum toolSetOf; decide)
    (List.Perm.refl _)
    (by decide) (by decide) (by decide)

/-! ## Claim C2 — determinism -/

/-- C2 (code bug): both directions are nondeterministic in the source,
because Go randomizes map iteration order.  `agentToConfig` emits the tool
set in map-range order, so the agent with tools `["Read", "Write"]` admits
both `["read", "write"]` and `["write", "read"]` as outputs — different
configs, hence different marshaled bytes.  `configToAgent` rebuilds the
reverse table by ranging over `toolMapping` on every call, so the config with
tools `["shell"]` parses to tools `["Task"]` under source order but
`["WebSearch"]` under the reversed order — different source identifiers for
the same input across invocations. -/
theorem C2_determinism_code_bug :
    isToolEnum ⟨"a", "", "", ["Read", "Write"], ""⟩ ["read", "write"] ∧
    isToolEnum ⟨"a", "", "", ["Read", "Write"], ""⟩ ["write", "read"] ∧
    agentToConfigWith ⟨"a", "", "", ["Read", "Write"], ""⟩ ["read", "write"]
      ≠ agentToConfigWith ⟨"a", "", "", ["Read", "Write"], ""⟩
          ["write", "read"] ∧
    (toolMapping.reverse).Perm toolMapping ∧
    configToAgentWith ⟨"c", "", "", ["shell"], "", 0⟩ toolMapping
      ≠ configToAgentWith ⟨"c", "", "", ["shell"], "", 0⟩
          toolMapping.reverse ∧
    (configToAgentWith ⟨"c", "", "", ["shell"], "", 0⟩ toolMapping).tools
      = ["Task"] ∧
    (configToAgentWith ⟨"c", "", "", ["shell"], "", 0⟩
        toolMapping.reverse).tools = ["WebSearch"] := by
  refine ⟨?_, ?_, ?_, List.reverse_perm _, ?_, ?_, ?_⟩
  · unfold isToolEnum toolSetOf
    decide
  · unfold isToolEnum toolSetOf
    decide
  · decide
  · decide
  · decide
  · decide

/-! ## Claim C3 — deduplication -/

/-- C3: whenever two distinct tool identifiers of the agent forward-map to
the same destination identifier `d`, the marshaled tools list contains
exactly one occurrence of `d`, under every iteration order of the tool set. -/
theorem C3_dedup (E : Agent) (ord : List String) (h : isToolEnum E ord)
    (t1 t2 d : String) (h1 : t1 ∈ E.tools) (h2 : t2 ∈ E.tools)
    (hne : t1 ≠ t2)
    (hm1 : toolMapLookup t1 = some d) (hm2 : toolMapLookup t2 = some d) :
    ((agentToConfigWith E ord).tools).count d = 1 := by
  have hd : d ∈ toolSetOf E.tools := by
    unfold toolSetOf
    rw [List.mem_dedup]
    refine List.mem_map.mpr ⟨t1, h1, ?_⟩
    unfold mapTool
    rw [hm1]
  have hnd : (toolSetOf E.tools).Nodup := List.nodup_dedup _
  show ord.count d = 1
  rw [h.count_eq d]
  exact List.count_eq_one_of_mem hnd hd

/-- C3 (witness): the agent with tools `["Bash", "Task"]` (both mapping to
"shell") marshals, under its only possible tool-set enumeration, to a tools
list containing "shell" exactly once. -/
theorem C3_dedup_witness :
    ((agentToConfigWith ⟨"w", "", "", ["Bash", "Task"], ""⟩
        ["shell"]).tools).count "shell" = 1 :=
  C3_dedup ⟨"w", "", "", ["Bash", "Task"], ""⟩ ["shell"]
    (by unfold isToolEnum toolSetOf; decide)
    "Bash" "Task" "shell"
    (by decide) (by decide) (by decide) (by decide) (by decide)

/-! ## Claim C4 — unknown-value preservation -/

/-- C4: a tool identifier absent from the forward table is marshaled as its
lower-cased form and never dropped, under every iteration order of the tool
set; and a tool identifier with no reverse-table binding is parsed back
unchanged, under every reverse-table construction order. -/
theorem C4_unknown_preserved (E : Agent) (ord : List String)
    (h : isToolEnum E ord) (cfg : AgentConfig)
    (entries : List (String × String)) :
    (∀ t ∈ E.tools, toolMapLookup t = none →
      strToLower t ∈ (agentToConfigWith E ord).tools) ∧
    (∀ u ∈ cfg.tools, mkReverse entries u = none →
      u ∈ (configToAgentWith cfg entries).tools) := by
  constructor
  · intro t ht hmiss
    show strToLower t ∈ ord
    have hmem : strToLower t ∈ toolSetOf E.tools := by
      unfold toolSetOf
      rw [List.mem_dedup]
      refine List.mem_map.mpr ⟨t, ht, ?_⟩
      unfold mapTool
      rw [hmiss]
    exact h.mem_iff.mpr hmem
  · intro u hu hmiss
    show u ∈ unmapTools entries cfg.tools
    rw [unmapTools_eq_map]
    refine List.mem_map.mpr ⟨u, hu, ?_⟩
    unfold unmapTool
    rw [hmiss]

/-- C4 (witness): "CustomTool" (not in the forward table) survives Marshal as
"customtool", and "mystery" (no reverse binding) survives Parse unchanged. -/
theorem C4_unknown_preserved_witness :
    strToLower "CustomTool" ∈
      (agentToConfigWith ⟨"a", "", "", ["CustomTool"], ""⟩
        ["customtool"]).tools ∧
    "mystery" ∈
      (configToAgentWith ⟨"c", "", "", ["mystery"], "", 0⟩
        toolMapping).tools :=
  ⟨(C4_unknown_preserved ⟨"a", "", "", ["CustomTool"], ""⟩ ["customtool"]
      (by unfold isToolEnum toolSetOf; decide)
      ⟨"c", "", "", ["mystery"], "", 0⟩ toolMapping).1
      "CustomTool" (by decide) (by decide),
   (C4_unknown_preserved ⟨"a", "", "", ["CustomTool"], ""⟩ ["customtool"]
      (by unfold isToolEnum toolSetOf; decide)
      ⟨"c", "", "", ["mystery"], "", 0⟩ toolMapping).2
      "mystery" (by decide) (by decide)⟩

/-! ## Claim C10 — parse preserves order and multiplicity -/

/-- C10: `configToAgent` produces one output tool per input tool, in input
order, each mapped independently through the reverse table (so duplicates in
the input are not deduplicated): the output has the same length and its i-th
entry is the reverse image of the input's i-th entry. -/
theorem C10_parse_preserves (cfg : AgentConfig)
    (entries : List (String × String)) :
    ((configToAgentWith cfg entries).tools).length = cfg.tools.length ∧
    ∀ i : Nat, ((configToAgentWith cfg entries).tools)[i]? =
      (cfg.tools[i]?).map (unmapTool entries) := by
  constructor
  · show (unmapTools entries cfg.tools).length = _
    rw [unmapTools_eq_map, List.length_map]
  · intro i
    show (unmapTools entries cfg.tools)[i]? = _
    rw [unmapTools_eq_map, List.getElem?_map]

/-- C10 (witness): a config with the duplicate tools `["shell", "x",
"shell"]` parses, under the source-order reverse table, to three entries in
input order with both occurrences of "shell" kept. -/
theorem C10_parse_preserves_witness :
    ((configToAgentWith ⟨"c", "", "", ["shell", "x", "shell"], "", 0⟩
        toolMapping).tools).length = 3 ∧
    ((configToAgentWith ⟨"c", "", "", ["shell", "x", "shell"], "", 0⟩
        toolMapping).tools)[0]? = some "Task" ∧
    ((configToAgentWith ⟨"c", "", "", ["shell", "x", "shell"], "", 0⟩
        toolMapping).tools)[1]? = some "x" ∧
    ((configToAgentWith ⟨"c", "", "", ["shell", "x", "shell"], "", 0⟩
        toolMapping).tools)[2]? = some "Task" := by
  refine ⟨?_, by decide, by decide, by decide⟩
  exact (C10_parse_preserves ⟨"c", "", "", ["shell", "x", "shell"], "", 0⟩
    toolMapping).1

/-! ## Claim C7 — Parse error behavior -/

/-- C7: for every input, `Parse` either returns a `ParseError` that carries
the format name "agentkit" and the underlying decode cause (exactly when the
decoder fails), or returns the canonical agent decoded through
`configToAgent` and no error (exactly when the decoder succeeds); being a
total function of its input, it panics on nothing and touches no shared
state. -/
theorem C7_parse_errors (dec : String → Except String AgentConfig)
    (entries : List (String × String)) (data : String) :
    (∀ e, dec data = Except.error e →
      ParseWith dec entries data =
        Except.error (AdapterError.parseError "agentkit" e)) ∧
    (∀ cfg, dec data = Except.ok cfg →
      ParseWith dec entries data =
        Except.ok (configToAgentWith cfg entries)) := by
  constructor
  · intro e he
    unfold ParseWith
    rw [he]
  · intro cfg hc
    unfold ParseWith
    rw [hc]

/-- C7 (witness): the spec's truncated input, on a decoder that rejects it,
yields the ParseError naming "agentkit" with the decode cause. -/
theorem C7_parse_errors_witness :
    ParseWith
      (fun s => if s = "\x7b\"name\":"
        then Except.error "unexpected end of JSON input"
        else Except.ok ⟨"", "", "", [], "", 0⟩)
      toolMapping "\x7b\"name\":" =
    Except.error
      (AdapterError.parseError "agentkit" "unexpected end of JSON input") :=
  (C7_parse_errors
    (fun s => if s = "\x7b\"name\":"
      then Except.error "unexpected end of JSON input"
      else Except.ok ⟨"", "", "", [], "", 0⟩)
    toolMapping "\x7b\"name\":").1
    "unexpected end of JSON input" rfl

/-! ## Claim C9 — WriteFile is atomic on Marshal failure -/

/-- C9: when the encoder fails on the agent's config, `WriteFile` returns the
`MarshalError` unchanged (format "agentkit", same cause) and leaves the file
system exactly as it was: no directory created, no file written or
truncated. -/
theorem C9_writefile_marshal_atomic (enc : AgentConfig → Except String String)
    (ord : List String) (agent : Agent) (path : String) (fs : FS) (e : String)
    (henc : enc (agentToConfigWith agent ord) = Except.error e) :
    WriteFileWith enc ord agent path fs =
      (some (AdapterError.marshalError "agentkit" e), fs) := by
  unfold WriteFileWith MarshalWith
  rw [henc]

/-- C9 (witness): a failing encoder leaves the empty file system untouched
and surfaces the marshal error. -/
theorem C9_writefile_marshal_atomic_witness :
    WriteFileWith (fun _ => Except.error "boom") ["x"]
      ⟨"a", "", "", [], ""⟩ "out/a.json"
      ⟨[], [], fun _ => none, fun _ => none⟩ =
    (some (AdapterError.marshalError "agentkit" "boom"),
      ⟨[], [], fun _ => none, fun _ => none⟩) :=
  C9_writefile_marshal_atomic (fun _ => Except.error "boom") ["x"]
    ⟨"a", "", "", [], ""⟩ "out/a.json"
    ⟨[], [], fun _ => none, fun _ => none⟩ "boom" rfl

/-! ## Claim C8 — WriteFile creates the directory, then writes -/

/-- C8: after a successful marshal, `WriteFile` creates the parent directory
with `DefaultDirMode` and then writes the marshaled bytes with
`DefaultFileMode`; a directory-creation failure or a write failure is
surfaced as a `WriteError` carrying the path and the underlying cause (and a
directory failure prevents the write). -/
theorem C8_writefile_dir_then_write (enc : AgentConfig → Except String String)
    (ord : List String) (agent : Agent) (path : String) (fs : FS)
    (data : String)
    (henc : MarshalWith enc ord agent = Except.ok data) :
    (fs.mkdirFail (filepathDir path) = none → fs.writeFail path = none →
      WriteFileWith enc ord agent path fs =
        (none,
          { dirs := (filepathDir path, defaultDirMode) :: fs.dirs
            files := (path, data, defaultFileMode) :: fs.files
            mkdirFail := fs.mkdirFail
            writeFail := fs.writeFail })) ∧
    (∀ e, fs.mkdirFail (filepathDir path) = some e →
      WriteFileWith enc ord agent path fs =
        (some (AdapterError.writeError path e), fs)) ∧
    (∀ e, fs.mkdirFail (filepathDir path) = none →
      fs.writeFail path = some e →
      WriteFileWith enc ord agent path fs =
        (some (AdapterError.writeError path e),
          { dirs := (filepathDir path, defaultDirMode) :: fs.dirs
            files := fs.files
            mkdirFail := fs.mkdirFail
            writeFail := fs.writeFail })) := by
  refine ⟨?_, ?_, ?_⟩
  · intro hmk hw
    unfold WriteFileWith
    rw [henc]
    simp [osMkdirAll, osWriteFile, hmk, hw]
  · intro e hmk
    unfold WriteFileWith
    rw [henc]
    simp [osMkdirAll, hmk]
  · intro e hmk hw
    unfold WriteFileWith
    rw [henc]
    simp [osMkdirAll, osWriteFile, hmk, hw]

/-- C8 (witness): writing to "plugins/agentkit/a.json" on an empty file
system creates the parent directory with the directory mode and writes the
bytes with the file mode. -/
theorem C8_writefile_dir_then_write_witness :
    WriteFileWith (fun _ => Except.ok "DATA") ["read"]
      ⟨"a", "", "", ["Read"], ""⟩ "plugins/agentkit/a.json"
      ⟨[], [], fun _ => none, fun _ => none⟩ =
    (none,
      { dirs := [(filepathDir "plugins/agentkit/a.json", defaultDirMode)]
        files := [("plugins/agentkit/a.json", "DATA\n", defaultFileMode)]
        mkdirFail := fun _ => none
        writeFail := fun _ => none }) :=
  (C8_writefile_dir_then_write (fun _ => Except.ok "DATA") ["read"]
    ⟨"a", "", "", ["Read"], ""⟩ "plugins/agentkit/a.json"
    ⟨[], [], fun _ => none, fun _ => none⟩ "DATA\n" rfl).1 rfl rfl

/-- A kept (processed) target is exactly one that is not skipped by the
priority filter. -/
theorem kept_false_iff (pf : String) (t : Target) :
    (pf == "" || t.priority == pf) = false ↔ (pf ≠ "" ∧ t.priority ≠ pf) := by
  simp [Bool.or_eq_false_iff]

/-! ## Claim C5 — multi-target partial failure -/

/-- C5 (counterexample): the target loop of `runProjectMode` aborts at the
first failing target.  With two targets where generation fails on "t1", only
"t1" is attempted — "t2" is never invoked — contradicting the claim that
every target is attempted regardless of earlier failures. -/
theorem C5_partial_failure_counterexample :
    (processTargets
        (fun tg => if tg.name = "t1" then Except.error "boom"
          else Except.ok ())
        ""
        [⟨"t1", "claude-code", "p1", "o1"⟩,
         ⟨"t2", "kiro-cli", "p1", "o2"⟩]).2 = ["t1"] ∧
    "t2" ∉ (processTargets
        (fun tg => if tg.name = "t1" then Except.error "boom"
          else Except.ok ())
        ""
        [⟨"t1", "claude-code", "p1", "o1"⟩,
         ⟨"t2", "kiro-cli", "p1", "o2"⟩]).2 ∧
    (processTargets
        (fun tg => if tg.name = "t1" then Except.error "boom"
          else Except.ok ())
        ""
        [⟨"t1", "claude-code", "p1", "o1"⟩,
         ⟨"t2", "kiro-cli", "p1", "o2"⟩]).1 =
      Except.error "failed to generate t1: boom" := by
  refine ⟨by decide, by decide, ?_⟩
  rfl

/-- C5 (amended): a single target's failure is reported against that target —
the returned error is "failed to generate NAME: cause" — and aborts the loop:
generation is invoked for the unskipped targets before the failing one and
for the failing one itself, and for none after it. -/
theorem C5_abort_amended (gen : Target → Except String Unit) (pf : String)
    (pre : List Target) (t : Target) (post : List Target) (e : String)
    (hpre : ∀ t2 ∈ pre, ¬(pf ≠ "" ∧ t2.priority ≠ pf) →
      gen t2 = Except.ok ())
    (ht : ¬(pf ≠ "" ∧ t.priority ≠ pf))
    (hfail : gen t = Except.error e) :
    processTargets gen pf (pre ++ t :: post) =
      (Except.error ("failed to generate " ++ t.name ++ ": " ++ e),
       keptNames pf pre ++ [t.name]) := by
  induction pre with
  | nil =>
    rw [List.nil_append]
    unfold processTargets
    rw [if_neg ht, hfail]
    rfl
  | cons p ps ih =>
    have ihs := ih (fun t2 ht2 hk => hpre t2 (List.mem_cons_of_mem p ht2) hk)
    rw [List.cons_append]
    unfold processTargets
    by_cases hs : pf ≠ "" ∧ p.priority ≠ pf
    · rw [if_pos hs, ihs]
      have hb : (pf == "" || p.priority == pf) = false :=
        (kept_false_iff pf p).mpr hs
      unfold keptNames
      rw [List.filter_cons, hb]
      simp [keptNames]
    · rw [if_neg hs]
      have hb : (pf == "" || p.priority == pf) = true := by
        cases hbb : (pf == "" || p.priority == pf)
        · exact absurd ((kept_false_iff pf p).mp hbb) hs
        · rfl
      simp only [hpre p (List.mem_cons_self p ps) hs, ihs]
      unfold keptNames
      rw [List.filter_cons, hb]
      simp [keptNames]

/-- C5 (witness): with an empty priority filter, a leading succeeding target
"t0", a failing target "t1" and a trailing target "t2", the loop reports the
failure against "t1" and attempts exactly ["t0", "t1"]. -/
theorem C5_abort_amended_witness :
    processTargets
      (fun tg => if tg.name = "t1" then Except.error "boom"
        else Except.ok ())
      ""
      ([⟨"t0", "claude-code", "p1", "o0"⟩] ++
        ⟨"t1", "kiro-cli", "p1", "o1"⟩ ::
          [⟨"t2", "agentkit-local", "p1", "o2"⟩]) =
    (Except.error "failed to generate t1: boom",
     keptNames "" [⟨"t0", "claude-code", "p1", "o0"⟩] ++ ["t1"]) :=
  C5_abort_amended
    (fun tg => if tg.name = "t1" then Except.error "boom" else Except.ok ())
    "" [⟨"t0", "claude-code", "p1", "o0"⟩]
    ⟨"t1", "kiro-cli", "p1", "o1"⟩
    [⟨"t2", "agentkit-local", "p1", "o2"⟩] "boom"
    (by
      intro t2 ht2 hk
      rcases List.mem_singleton.mp ht2 with rfl
      rfl)
    (by decide) rfl

/-! ## Claim C6 — unknown format error -/

/-- C6: when the requested format is not registered (and the output-directory
creation itself succeeds), `generateAgents` fails with exactly the message
naming the requested format and listing every registered adapter name, the
requested format is indeed absent from that list, and no output file is
written. -/
theorem C6_unknown_format (reg : Registry) (agentList : List Agent)
    (format outputDir : String) (fs : FS)
    (hmk : fs.mkdirFail outputDir = none)
    (habs : getAdapter reg format = none) :
    (generateAgentsM reg agentList format outputDir fs).1 =
      Except.error (unknownFormatMsg format (adapterNames reg)) ∧
    format ∉ adapterNames reg ∧
    ((generateAgentsM reg agentList format outputDir fs).2).files =
      fs.files := by
  have hgen : generateAgentsM reg agentList format outputDir fs =
      (Except.error (unknownFormatMsg format (adapterNames reg)),
        { fs with dirs := (outputDir, 0o755) :: fs.dirs }) := by
    unfold generateAgentsM osMkdirAll
    rw [hmk]
    simp [habs]
  refine ⟨by rw [hgen], ?_, by rw [hgen]⟩
  intro hmem
  unfold adapterNames at hmem
  obtain ⟨p, hp, hpeq⟩ := List.mem_map.mp hmem
  unfold getAdapter at habs
  cases hfind : List.find? (fun q => q.1 = format) reg with
  | some a =>
    rw [hfind] at habs
    exact absurd habs (by simp)
  | none =>
    have hnone := List.find?_eq_none.mp hfind p hp
    simp only [decide_eq_true_eq] at hnone
    exact hnone hpeq

/-- C6 (witness): the format "doesnotexist" against a registry holding
"claude" and "kiro" produces the unknown-format message listing both names,
and writes nothing. -/
theorem C6_unknown_format_witness :
    (generateAgentsM regW [] "doesnotexist" "out"
      ⟨[], [], fun _ => none, fun _ => none⟩).1 =
      Except.error (unknownFormatMsg "doesnotexist" (adapterNames regW)) ∧
    "doesnotexist" ∉ adapterNames regW ∧
    ((generateAgentsM regW [] "doesnotexist" "out"
      ⟨[], [], fun _ => none, fun _ => none⟩).2).files = [] :=
  C6_unknown_format regW [] "doesnotexist" "out"
    ⟨[], [], fun _ => none, fun _ => none⟩ rfl rfl

end AiAssistKit
